import Mathlib

/-!
Verification development for the `g3dradarprocess` GStreamer element and its
radar metadata container.

The embedding models:
* the preprocessing kernel of `gst_radar_process_transform_ip`
  (DC removal + chirp-major → channel-major reorder), with complex float
  samples modelled as pairs of rationals;
* the per-frame driver `gst_radar_process_transform_ip` as a state
  transition over an explicit per-frame environment (buffer size, engine
  status codes, clock reads);
* the lifecycle functions `gst_radar_process_start`, `gst_radar_process_stop`
  and `gst_radar_process_finalize` over an explicit resource state;
* `RadarConfig::load_from_json` over a structural model of the JSON input;
* `gst_radar_process_meta_transform` from `g3d_radarprocess_meta.c`.

Machine floats are modelled as exact rationals; `guint` arithmetic that can
wrap is taken modulo `2 ^ 32` where the source computes in 32-bit unsigned,
and `GstClockTime` subtraction modulo `2 ^ 64`.
-/

namespace RadarProc

/-- One `std::complex<float>` sample, modelled as an exact pair
(real part, imaginary part). -/
abbrev Cplx := ℚ × ℚ

/-- Mean of the real parts of a sample window (the value
`real_sum / count` computed by `dc_removal` in `gstradarprocess.cpp`). -/
def dcMeanRe (data : List Cplx) : ℚ :=
  (data.map Prod.fst).sum / (data.length : ℚ)

/-- Mean of the imaginary parts of a sample window (the value
`imag_sum / count` computed by `dc_removal` in `gstradarprocess.cpp`). -/
def dcMeanIm (data : List Cplx) : ℚ :=
  (data.map Prod.snd).sum / (data.length : ℚ)

/-- `dc_removal(std::complex<float>* data, size_t count)` from
`gstradarprocess.cpp` lines 452-472: if the window is empty it returns
immediately; otherwise it subtracts the arithmetic mean of the real parts
and of the imaginary parts from every sample. -/
def dc_removal (data : List Cplx) : List Cplx :=
  if data.length = 0 then data
  else
    data.map (fun z => (z.1 - dcMeanRe data, z.2 - dcMeanIm data))

lemma dc_removal_length (data : List Cplx) :
    (dc_removal data).length = data.length := by
  unfold dc_removal
  split <;> simp

lemma sum_map_sub_const (l : List Cplx) (f : Cplx → ℚ) (a : ℚ) :
    (l.map (fun z => f z - a)).sum = (l.map f).sum - l.length * a := by
  induction l with
  | nil => simp
  | cons x xs ih =>
      simp only [List.map_cons, List.sum_cons, ih, List.length_cons]
      push_cast
      ring

lemma dc_removal_sum_fst (data : List Cplx) (h : data.length ≠ 0) :
    ((dc_removal data).map Prod.fst).sum = 0 := by
  have hq : (data.length : ℚ) ≠ 0 := by exact_mod_cast h
  unfold dc_removal
  rw [if_neg h]
  rw [List.map_map]
  have : (Prod.fst ∘ fun z : Cplx => (z.1 - dcMeanRe data, z.2 - dcMeanIm data)) =
      fun z : Cplx => z.1 - dcMeanRe data := by
    funext z; rfl
  rw [this, sum_map_sub_const data Prod.fst (dcMeanRe data)]
  unfold dcMeanRe
  field_simp

lemma dc_removal_sum_snd (data : List Cplx) (h : data.length ≠ 0) :
    ((dc_removal data).map Prod.snd).sum = 0 := by
  have hq : (data.length : ℚ) ≠ 0 := by exact_mod_cast h
  unfold dc_removal
  rw [if_neg h]
  rw [List.map_map]
  have : (Prod.snd ∘ fun z : Cplx => (z.1 - dcMeanRe data, z.2 - dcMeanIm data)) =
      fun z : Cplx => z.2 - dcMeanIm data := by
    funext z; rfl
  rw [this, sum_map_sub_const data Prod.snd (dcMeanIm data)]
  unfold dcMeanIm
  field_simp

/-- C2: for a nonempty (chirp, channel) window, `dc_removal` subtracts the
per-component arithmetic mean from every sample, after which the sum (and
hence the mean) of the real parts and of the imaginary parts is exactly 0;
for a window of length 0 it is a no-op. -/
theorem spec_c2_dc_removal_zero_mean (data : List Cplx) :
    (data.length ≠ 0 →
      dc_removal data =
        data.map (fun z => (z.1 - dcMeanRe data, z.2 - dcMeanIm data)) ∧
      ((dc_removal data).map Prod.fst).sum = 0 ∧
      ((dc_removal data).map Prod.snd).sum = 0 ∧
      dcMeanRe (dc_removal data) = 0 ∧
      dcMeanIm (dc_removal data) = 0) ∧
    (data.length = 0 → dc_removal data = data) := by
  constructor
  · intro h
    refine ⟨?_, dc_removal_sum_fst data h, dc_removal_sum_snd data h, ?_, ?_⟩
    · unfold dc_removal; rw [if_neg h]
    · unfold dcMeanRe; rw [dc_removal_sum_fst data h]; simp
    · unfold dcMeanIm; rw [dc_removal_sum_snd data h]; simp
  · intro h
    unfold dc_removal
    rw [if_pos h]

/-- Witness for C2 at the concrete window `[(1,2), (3,6)]`
(component means 2 and 4). -/
theorem spec_c2_dc_removal_zero_mean_witness :
    (([((1 : ℚ), (2 : ℚ)), (3, 6)] : List Cplx).length ≠ 0) ∧
    (dc_removal [((1 : ℚ), (2 : ℚ)), (3, 6)] =
        ([((1 : ℚ), (2 : ℚ)), (3, 6)] : List Cplx).map
          (fun z => (z.1 - dcMeanRe [((1 : ℚ), (2 : ℚ)), (3, 6)],
                     z.2 - dcMeanIm [((1 : ℚ), (2 : ℚ)), (3, 6)])) ∧
      ((dc_removal [((1 : ℚ), (2 : ℚ)), (3, 6)]).map Prod.fst).sum = 0 ∧
      ((dc_removal [((1 : ℚ), (2 : ℚ)), (3, 6)]).map Prod.snd).sum = 0 ∧
      dcMeanRe (dc_removal [((1 : ℚ), (2 : ℚ)), (3, 6)]) = 0 ∧
      dcMeanIm (dc_removal [((1 : ℚ), (2 : ℚ)), (3, 6)]) = 0) :=
  ⟨by decide, (spec_c2_dc_removal_zero_mean _).1 (by decide)⟩

/-- Index `c * trn * adc_samples + t * adc_samples + s` used to read the
chirp-major input staging buffer in the reorder loop
(`gstradarprocess.cpp` line 528). -/
def chirpMajorIdx (trn sn c t s : ℕ) : ℕ := c * (trn * sn) + t * sn + s

/-- Index `t * num_chirps * adc_samples + c * adc_samples + s` used to write
the channel-major output staging buffer (`gstradarprocess.cpp` line 537). -/
def channelMajorIdx (cn sn t c s : ℕ) : ℕ := t * (cn * sn) + c * sn + s

/-- The `temp_samples` window extracted for chirp `c` and channel `t`
(`gstradarprocess.cpp` lines 526-530): samples
`input_data[c*trn*sn + t*sn + s]` for `s < sn`. -/
def windowOf (inp : List Cplx) (trn sn c t : ℕ) : List Cplx :=
  (List.range sn).map (fun s => inp.getD (chirpMajorIdx trn sn c t s) (0, 0))

/-- The output staging buffer after the reorder loop of
`gst_radar_process_transform_ip` (lines 519-541), with the DC-removal call
included: position `t*(cn*sn) + c*sn + s` holds sample `s` of the DC-removed
window for chirp `c`, channel `t`.  The loop writes each output index exactly
once, so listing the written values in output-index (channel-major) order
gives exactly this concatenation. -/
def preprocess (trn cn sn : ℕ) (inp : List Cplx) : List Cplx :=
  (List.range trn).flatMap (fun t =>
    (List.range cn).flatMap (fun c => dc_removal (windowOf inp trn sn c t)))

/-- The reorder pass of the same loop considered alone (windows moved to
channel-major positions, DC removal omitted); used to state that the index
remapping itself is a permutation. -/
def reorder (trn cn sn : ℕ) (inp : List Cplx) : List Cplx :=
  (List.range trn).flatMap (fun t =>
    (List.range cn).flatMap (fun c => windowOf inp trn sn c t))

/-- The DC-removed frame left in its original chirp-major layout: each
window `(c, t)` is DC-removed in place. -/
def dcChirpMajor (trn cn sn : ℕ) (inp : List Cplx) : List Cplx :=
  (List.range cn).flatMap (fun c =>
    (List.range trn).flatMap (fun t => dc_removal (windowOf inp trn sn c t)))

lemma length_windowOf (inp : List Cplx) (trn sn c t : ℕ) :
    (windowOf inp trn sn c t).length = sn := by
  simp [windowOf]

lemma sum_const_range (n k : ℕ) : ((List.range n).map (fun _ => k)).sum = n * k := by
  induction n with
  | zero => simp
  | succ m ih =>
      rw [List.range_succ]
      simp only [List.map_append, List.sum_append, ih, List.map_cons, List.map_nil,
        List.sum_cons, List.sum_nil]
      ring

lemma length_flatMap_const (l : List ℕ) (f : ℕ → List Cplx) (L : ℕ)
    (h : ∀ x ∈ l, (f x).length = L) :
    (l.flatMap f).length = l.length * L := by
  rw [List.length_flatMap]
  induction l with
  | nil => simp
  | cons x xs ih =>
      simp only [List.map_cons, List.sum_cons, Function.comp_apply,
        h x (List.mem_cons_self x xs), List.length_cons]
      rw [ih (fun y hy => h y (List.mem_cons_of_mem x hy))]
      ring

lemma getD_flatMap {α : Type} (f : α → List Cplx) (L : ℕ) (d : Cplx) (a₀ : α) :
    ∀ (l : List α), (∀ x ∈ l, (f x).length = L) → ∀ i s : ℕ, i < l.length → s < L →
      (l.flatMap f).getD (i * L + s) d = (f (l.getD i a₀)).getD s d := by
  intro l
  induction l with
  | nil =>
      intro _ i s hi _
      exact absurd hi (by simp)
  | cons x xs ih =>
      intro h i s hi hs
      cases i with
      | zero =>
          have hx : (f x).length = L := h x (List.mem_cons_self x xs)
          simp only [List.flatMap_cons, Nat.zero_mul, Nat.zero_add]
          rw [List.getD_append _ _ _ _ (by rw [hx]; exact hs)]
          rfl
      | succ j =>
          have hx : (f x).length = L := h x (List.mem_cons_self x xs)
          have hle : (f x).length ≤ (j + 1) * L + s := by
            rw [hx]
            calc L ≤ (j + 1) * L := Nat.le_mul_of_pos_left L (Nat.succ_pos j)
              _ ≤ (j + 1) * L + s := Nat.le_add_right _ _
          simp only [List.flatMap_cons]
          rw [List.getD_append_right _ _ _ _ hle, hx]
          have : (j + 1) * L + s - L = j * L + s := by
            have : (j + 1) * L = j * L + L := by ring
            omega
          rw [this]
          exact ih (fun y hy => h y (List.mem_cons_of_mem x hy)) j s
            (Nat.lt_of_succ_lt_succ hi) hs

lemma getD_range (n i : ℕ) (hi : i < n) : (List.range n).getD i 0 = i := by
  rw [List.getD_eq_getElem _ _ (by simpa using hi)]
  exact List.getElem_range i _

lemma windowOf_getD (inp : List Cplx) (trn sn c t s : ℕ) (hs : s < sn) :
    (windowOf inp trn sn c t).getD s (0, 0) =
      inp.getD (chirpMajorIdx trn sn c t s) (0, 0) := by
  unfold windowOf
  rw [List.getD_eq_getElem _ _ (by simpa using hs)]
  rw [List.getElem_map]
  rw [List.getElem_range s _]

lemma coe_flatMap_bind (l : List ℕ) (f : ℕ → List Cplx) :
    (↑(l.flatMap f) : Multiset Cplx) = (↑l : Multiset ℕ).bind (fun a => ↑(f a)) :=
  (Multiset.coe_bind l f).symm

lemma flatMap_swap_multiset (A B : ℕ) (f : ℕ → ℕ → List Cplx) :
    (↑((List.range A).flatMap (fun a => (List.range B).flatMap (fun b => f a b))) :
        Multiset Cplx) =
      ↑((List.range B).flatMap (fun b => (List.range A).flatMap (fun a => f a b))) := by
  rw [coe_flatMap_bind, coe_flatMap_bind]
  have h1 : ((↑(List.range A) : Multiset ℕ).bind
      (fun a => (↑((List.range B).flatMap (fun b => f a b)) : Multiset Cplx))) =
      (↑(List.range A) : Multiset ℕ).bind
        (fun a => (↑(List.range B) : Multiset ℕ).bind (fun b => ↑(f a b))) := by
    congr 1
    funext a
    rw [coe_flatMap_bind]
  have h2 : ((↑(List.range B) : Multiset ℕ).bind
      (fun b => (↑((List.range A).flatMap (fun a => f a b)) : Multiset Cplx))) =
      (↑(List.range B) : Multiset ℕ).bind
        (fun b => (↑(List.range A) : Multiset ℕ).bind (fun a => ↑(f a b))) := by
    congr 1
    funext b
    rw [coe_flatMap_bind]
  rw [h1, h2, Multiset.bind_bind]

lemma inner_window_length (inp : List Cplx) (trn sn c : ℕ) :
    ((List.range trn).flatMap (fun t => windowOf inp trn sn c t)).length = trn * sn := by
  rw [length_flatMap_const _ _ sn (fun t _ => length_windowOf inp trn sn c t),
    List.length_range]

/-- The chirp-major windows tile the input buffer exactly: concatenating
`windowOf inp c t` over all chirps `c` and channels `t` in chirp-major order
rebuilds the input staging buffer. -/
lemma windows_tile (trn cn sn : ℕ) (inp : List Cplx)
    (hlen : inp.length = cn * (trn * sn)) :
    (List.range cn).flatMap
        (fun c => (List.range trn).flatMap (fun t => windowOf inp trn sn c t)) =
      inp := by
  apply List.ext_getElem
  · rw [length_flatMap_const _ _ (trn * sn)
      (fun c _ => inner_window_length inp trn sn c), List.length_range, hlen]
  · intro n h1 h2
    have hn2 : n < cn * (trn * sn) := by rw [← hlen]; exact h2
    have hts : 0 < trn * sn := by
      rcases Nat.eq_zero_or_pos (trn * sn) with h | h
      · rw [h, Nat.mul_zero] at hn2; exact absurd hn2 (Nat.not_lt_zero n)
      · exact h
    have hsn : 0 < sn := by
      rcases Nat.eq_zero_or_pos sn with h | h
      · rw [h, Nat.mul_zero] at hts; exact absurd hts (Nat.lt_irrefl 0)
      · exact h
    have hc : n / (trn * sn) < cn := Nat.div_lt_of_lt_mul (by
      rw [Nat.mul_comm (trn * sn) cn]; exact hn2)
    have hr : n % (trn * sn) < trn * sn := Nat.mod_lt n hts
    have ht : n % (trn * sn) / sn < trn := Nat.div_lt_of_lt_mul (by
      rw [Nat.mul_comm sn trn]; exact hr)
    have hs : n % (trn * sn) % sn < sn := Nat.mod_lt _ hsn
    have e1 : trn * sn * (n / (trn * sn)) + n % (trn * sn) = n :=
      Nat.div_add_mod n (trn * sn)
    have e2 : sn * (n % (trn * sn) / sn) + n % (trn * sn) % sn = n % (trn * sn) :=
      Nat.div_add_mod (n % (trn * sn)) sn
    have hdec : n = n / (trn * sn) * (trn * sn) +
        (n % (trn * sn) / sn * sn + n % (trn * sn) % sn) := by
      rw [Nat.mul_comm (n / (trn * sn)) (trn * sn),
        Nat.mul_comm (n % (trn * sn) / sn) sn]
      omega
    rw [← List.getD_eq_getElem _ (0, 0) h1, ← List.getD_eq_getElem _ (0, 0) h2]
    conv_lhs => rw [hdec]
    have hlt : n % (trn * sn) / sn * sn + n % (trn * sn) % sn < trn * sn := by
      calc n % (trn * sn) / sn * sn + n % (trn * sn) % sn
          < n % (trn * sn) / sn * sn + sn := Nat.add_lt_add_left hs _
        _ = (n % (trn * sn) / sn + 1) * sn := by ring
        _ ≤ trn * sn := Nat.mul_le_mul_right sn ht
    rw [getD_flatMap _ (trn * sn) (0, 0) 0 _
      (fun c _ => inner_window_length inp trn sn c) _ _ (by simpa using hc) hlt]
    rw [getD_range cn _ hc]
    rw [getD_flatMap _ sn (0, 0) 0 _
      (fun t _ => length_windowOf inp trn sn _ t) _ _ (by simpa using ht) hs]
    rw [getD_range trn _ ht]
    rw [windowOf_getD inp trn sn _ _ _ hs]
    congr 1
    unfold chirpMajorIdx
    conv_rhs => rw [hdec]
    ring

lemma inner_window_length_t (inp : List Cplx) (trn cn sn t : ℕ) :
    ((List.range cn).flatMap (fun c => windowOf inp trn sn c t)).length = cn * sn := by
  rw [length_flatMap_const _ _ sn (fun c _ => length_windowOf inp trn sn c t),
    List.length_range]

lemma dc_window_length (inp : List Cplx) (trn sn c t : ℕ) :
    (dc_removal (windowOf inp trn sn c t)).length = sn := by
  rw [dc_removal_length, length_windowOf]

lemma inner_dc_length (inp : List Cplx) (trn cn sn t : ℕ) :
    ((List.range cn).flatMap (fun c => dc_removal (windowOf inp trn sn c t))).length =
      cn * sn := by
  rw [length_flatMap_const _ _ sn (fun c _ => dc_window_length inp trn sn c t),
    List.length_range]

lemma preprocess_getD (trn cn sn : ℕ) (inp : List Cplx) (t c s : ℕ)
    (ht : t < trn) (hc : c < cn) (hs : s < sn) :
    (preprocess trn cn sn inp).getD (channelMajorIdx cn sn t c s) (0, 0) =
      (dc_removal (windowOf inp trn sn c t)).getD s (0, 0) := by
  unfold preprocess channelMajorIdx
  have hlt : c * sn + s < cn * sn := by
    calc c * sn + s < c * sn + sn := Nat.add_lt_add_left hs _
      _ = (c + 1) * sn := by ring
      _ ≤ cn * sn := Nat.mul_le_mul_right sn hc
  rw [Nat.add_assoc]
  rw [getD_flatMap (fun t2 => (List.range cn).flatMap
      (fun c2 => dc_removal (windowOf inp trn sn c2 t2))) (cn * sn) (0, 0) 0 _
    (fun t2 _ => inner_dc_length inp trn cn sn t2) _ _ (by simpa using ht) hlt]
  rw [getD_range trn _ ht]
  rw [getD_flatMap _ sn (0, 0) 0 _
    (fun c2 _ => dc_window_length inp trn sn c2 t) _ _ (by simpa using hc) hs]
  rw [getD_range cn _ hc]

lemma reorder_getD (trn cn sn : ℕ) (inp : List Cplx) (t c s : ℕ)
    (ht : t < trn) (hc : c < cn) (hs : s < sn) :
    (reorder trn cn sn inp).getD (channelMajorIdx cn sn t c s) (0, 0) =
      inp.getD (chirpMajorIdx trn sn c t s) (0, 0) := by
  unfold reorder channelMajorIdx
  have hlt : c * sn + s < cn * sn := by
    calc c * sn + s < c * sn + sn := Nat.add_lt_add_left hs _
      _ = (c + 1) * sn := by ring
      _ ≤ cn * sn := Nat.mul_le_mul_right sn hc
  rw [Nat.add_assoc]
  rw [getD_flatMap (fun t2 => (List.range cn).flatMap
      (fun c2 => windowOf inp trn sn c2 t2)) (cn * sn) (0, 0) 0 _
    (fun t2 _ => inner_window_length_t inp trn cn sn t2) _ _ (by simpa using ht) hlt]
  rw [getD_range trn _ ht]
  rw [getD_flatMap _ sn (0, 0) 0 _
    (fun c2 _ => length_windowOf inp trn sn c2 t) _ _ (by simpa using hc) hs]
  rw [getD_range cn _ hc]
  exact windowOf_getD inp trn sn _ t s hs

/-- C1: the reorder pass is a bijection on sample positions.  (i) The pure
reorder (DC removal set aside) leaves the multiset of complex sample values
unchanged; (ii) it moves the sample at chirp-major index `(c, t, s)` to
channel-major index `(t, c, s)`; (iii) with DC removal included (the actual
loop), the output staging buffer is, as a multiset, exactly the DC-removed
input — no sample is created or dropped; (iv) pointwise, the output sample
at channel-major `(t, c, s)` is the input sample at chirp-major `(c, t, s)`
minus its window's per-component DC mean. -/
theorem spec_c1_reorder_bijection (trn cn sn : ℕ) (inp : List Cplx)
    (hlen : inp.length = cn * (trn * sn)) :
    (↑(reorder trn cn sn inp) : Multiset Cplx) = (↑inp : Multiset Cplx) ∧
    (∀ t c s : ℕ, t < trn → c < cn → s < sn →
      (reorder trn cn sn inp).getD (channelMajorIdx cn sn t c s) (0, 0) =
        inp.getD (chirpMajorIdx trn sn c t s) (0, 0)) ∧
    (↑(preprocess trn cn sn inp) : Multiset Cplx) =
      (↑(dcChirpMajor trn cn sn inp) : Multiset Cplx) ∧
    (∀ t c s : ℕ, t < trn → c < cn → s < sn →
      (preprocess trn cn sn inp).getD (channelMajorIdx cn sn t c s) (0, 0) =
        ((inp.getD (chirpMajorIdx trn sn c t s) (0, 0)).1 -
            dcMeanRe (windowOf inp trn sn c t),
         (inp.getD (chirpMajorIdx trn sn c t s) (0, 0)).2 -
            dcMeanIm (windowOf inp trn sn c t))) := by
  refine ⟨?_, fun t c s ht hc hs => reorder_getD trn cn sn inp t c s ht hc hs, ?_, ?_⟩
  · unfold reorder
    rw [flatMap_swap_multiset trn cn (fun t c => windowOf inp trn sn c t)]
    rw [windows_tile trn cn sn inp hlen]
  · unfold preprocess dcChirpMajor
    exact flatMap_swap_multiset trn cn (fun t c => dc_removal (windowOf inp trn sn c t))
  · intro t c s ht hc hs
    rw [preprocess_getD trn cn sn inp t c s ht hc hs]
    have hwne : (windowOf inp trn sn c t).length ≠ 0 := by
      rw [length_windowOf]; omega
    unfold dc_removal
    rw [if_neg hwne]
    rw [List.getD_eq_getElem _ (0, 0) (by
      rw [List.length_map, length_windowOf]; exact hs)]
    rw [List.getElem_map]
    rw [← List.getD_eq_getElem _ (0, 0) (by rw [length_windowOf]; exact hs)]
    rw [windowOf_getD inp trn sn c t s hs]

/-- Witness for C1 with trn = 2 channels, 1 chirp, 1 sample per window and
input `[(1,2), (3,4)]`: the reorder keeps the multiset and maps chirp-major
index (0,1,0) to channel-major index (1,0,0). -/
theorem spec_c1_reorder_bijection_witness :
    (([((1 : ℚ), (2 : ℚ)), (3, 4)] : List Cplx).length = 1 * (2 * 1)) ∧
    (↑(reorder 2 1 1 [((1 : ℚ), (2 : ℚ)), (3, 4)]) : Multiset Cplx) =
      (↑([((1 : ℚ), (2 : ℚ)), (3, 4)] : List Cplx) : Multiset Cplx) ∧
    (reorder 2 1 1 [((1 : ℚ), (2 : ℚ)), (3, 4)]).getD
        (channelMajorIdx 1 1 1 0 0) (0, 0) =
      ([((1 : ℚ), (2 : ℚ)), (3, 4)] : List Cplx).getD
        (chirpMajorIdx 2 1 0 1 0) (0, 0) := by
  have h := spec_c1_reorder_bijection 2 1 1 [((1 : ℚ), (2 : ℚ)), (3, 4)] (by decide)
  exact ⟨by decide, h.1, h.2.1 1 0 0 (by decide) (by decide) (by decide)⟩

/-- Modelled from the spec: `libradar.h` is not among the covered sources;
the engine ABI contract says each entry point returns a status code with one
designated success value (`R_SUCCESS`).  Status codes are modelled as `ℕ`
with success fixed at 0; the element only ever compares codes against
`R_SUCCESS`, so the concrete value is immaterial. -/
def R_SUCCESS : ℕ := 0

/-- Modulus of `guint` (32-bit unsigned) arithmetic. -/
def U32 : ℕ := 2 ^ 32

/-- Modulus of `GstClockTime`/`guint64` (64-bit unsigned) arithmetic. -/
def U64 : ℕ := 2 ^ 64

/-- Unsigned 64-bit subtraction `a - b` as performed on `GstClockTime`. -/
def gstSub (a b : ℕ) : ℕ := (a + (U64 - b % U64)) % U64

lemma gstSub_eq (a b : ℕ) (hb : b ≤ a) (ha : a < U64) : gstSub a b = a - b := by
  unfold gstSub
  have hbU : b % U64 = b := Nat.mod_eq_of_lt (lt_of_le_of_lt hb ha)
  rw [hbU]
  have hU : 0 < U64 := by unfold U64; positivity
  have hsplit : a + (U64 - b) = (a - b) + U64 := by omega
  rw [hsplit, Nat.add_mod_right]
  exact Nat.mod_eq_of_lt (lt_of_le_of_lt (Nat.sub_le a b) ha)

/-- `GstFlowReturn` restricted to the two values the element produces. -/
inductive GstFlowReturn where
  | ok
  | error
  deriving Repr, DecidableEq

/-- The fields of `GstRadarProcess` (gstradarprocess.h) that the modelled
operations read or write.  Pointer-valued resources are modelled as `Bool`
(acquired / null); `GST_CLOCK_TIME_NONE` sentinels as `Option ℕ`. -/
structure RadarState where
  num_rx : ℕ
  num_tx : ℕ
  num_chirps : ℕ
  adc_samples : ℕ
  trn : ℕ
  frame_rate : ℚ
  frame_duration : Option ℕ
  last_frame_time : Option ℕ
  frame_id : ℕ
  total_frames : ℕ
  total_processing_time : ℚ
  input_data : List Cplx
  output_data : List Cplx
  libradar_handle : Bool
  radarGetMemSize_fn : Bool
  radarInitHandle_fn : Bool
  radarDetection_fn : Bool
  radarClustering_fn : Bool
  radarTracking_fn : Bool
  radarDestroyHandle_fn : Bool
  radar_handle : Bool
  radar_buffer : Bool
  radar_buffer_size : ℕ
  radar_config : Bool

/-- Per-frame environment: everything `gst_radar_process_transform_ip` reads
from outside its own state — buffer mapping success, the mapped size and
contents, the two clock reads around the pacing sleep (none when the element
has no clock), the three engine status codes, metadata-attachment success,
and the measured frame processing time. -/
structure FrameEnv where
  mapOk : Bool
  bufSize : ℕ
  bufData : List Cplx
  clock : Option (ℕ × ℕ)
  detectRet : ℕ
  clusterRet : ℕ
  trackRet : ℕ
  metaOk : Bool
  dt : ℚ

/-- Result of one `transform_ip` call: flow return, successor state, the
frame id recorded in the attached metadata record (none when no record was
attached), the nanosecond pacing sleep performed (the code passes this value
through `GST_TIME_AS_USECONDS` to `g_usleep`), and which engine stages were
invoked. -/
structure FrameOutcome where
  flow : GstFlowReturn
  state : RadarState
  meta : Option ℕ
  slept : Option ℕ
  detectCalled : Bool
  clusterCalled : Bool
  trackCalled : Bool

/-- The frame-rate control block of `gst_radar_process_transform_ip`
(lines 480-496): skipped entirely when `frame_duration` is
`GST_CLOCK_TIME_NONE` or no clock is available; otherwise, with clock reads
`(t1, t2)`, sleeps `frame_duration - (t1 - last)` when the elapsed time is
below `frame_duration`, and records the post-wait read `t2` as the new
`last_frame_time`. -/
def rate_control (frame_duration last : Option ℕ) (clock : Option (ℕ × ℕ)) :
    Option ℕ × Option ℕ :=
  match frame_duration with
  | none => (none, last)
  | some fd =>
    match clock with
    | none => (none, last)
    | some (t1, t2) =>
      match last with
      | none => (none, some t2)
      | some l =>
        let elapsed := gstSub t1 l
        if elapsed < fd then (some (gstSub fd elapsed), some t2)
        else (none, some t2)

/-- The expected mapped-buffer byte size
`trn * num_chirps * adc_samples * sizeof(std::complex<float>)`
(`gstradarprocess.cpp` line 504): the three `guint` factors multiply in
32-bit unsigned arithmetic, the result then widens to `size_t` for the
product with `sizeof = 8`. -/
def expectedFrameSize (st : RadarState) : ℕ :=
  st.trn * st.num_chirps * st.adc_samples % U32 * 8

/-- `gst_radar_process_transform_ip` (lines 474-605): frame pacing, buffer
map, size validation, copy into the input staging buffer, DC removal +
reorder into the output staging buffer, the three engine stages with
fail-fast status checks, metadata attachment, and statistics update. -/
def transform_ip (st : RadarState) (env : FrameEnv) : FrameOutcome :=
  let rc := rate_control st.frame_duration st.last_frame_time env.clock
  let st1 := { st with last_frame_time := rc.2 }
  if !env.mapOk then
    ⟨GstFlowReturn.error, st1, none, rc.1, false, false, false⟩
  else if env.bufSize ≠ expectedFrameSize st then
    ⟨GstFlowReturn.error, st1, none, rc.1, false, false, false⟩
  else
    let st2 := { st1 with input_data := env.bufData.take st1.input_data.length }
    let st3 := { st2 with
      output_data := preprocess st2.trn st2.num_chirps st2.adc_samples st2.input_data }
    if env.detectRet ≠ R_SUCCESS then
      ⟨GstFlowReturn.error, st3, none, rc.1, true, false, false⟩
    else if env.clusterRet ≠ R_SUCCESS then
      ⟨GstFlowReturn.error, st3, none, rc.1, true, true, false⟩
    else if env.trackRet ≠ R_SUCCESS then
      ⟨GstFlowReturn.error, st3, none, rc.1, true, true, true⟩
    else
      let meta := if env.metaOk then some st3.frame_id else none
      let st4 := { st3 with
        total_processing_time := st3.total_processing_time + env.dt,
        total_frames := st3.total_frames + 1,
        frame_id := st3.frame_id + 1 }
      ⟨GstFlowReturn.ok, st4, meta, rc.1, true, true, true⟩

lemma transform_slept (st : RadarState) (env : FrameEnv) :
    (transform_ip st env).slept =
      (rate_control st.frame_duration st.last_frame_time env.clock).1 := by
  unfold transform_ip
  split_ifs <;> rfl

lemma transform_last (st : RadarState) (env : FrameEnv) :
    (transform_ip st env).state.last_frame_time =
      (rate_control st.frame_duration st.last_frame_time env.clock).2 := by
  unfold transform_ip
  split_ifs <;> rfl

/-- C3: `frame_id` and `total_frames` advance by exactly 1 precisely when the
frame runs all three engine stages and each returns the success code; any
stage failure or a size/map rejection leaves both counters unchanged and
attaches no result record; `frame_id` never decreases. -/
theorem spec_c3_frame_counters (st : RadarState) (env : FrameEnv) :
    (((transform_ip st env).state.frame_id = st.frame_id + 1 ∧
      (transform_ip st env).state.total_frames = st.total_frames + 1) ↔
      ((transform_ip st env).detectCalled = true ∧ env.detectRet = R_SUCCESS ∧
       (transform_ip st env).clusterCalled = true ∧ env.clusterRet = R_SUCCESS ∧
       (transform_ip st env).trackCalled = true ∧ env.trackRet = R_SUCCESS)) ∧
    ((transform_ip st env).flow = GstFlowReturn.error →
      (transform_ip st env).state.frame_id = st.frame_id ∧
      (transform_ip st env).state.total_frames = st.total_frames ∧
      (transform_ip st env).meta = none) ∧
    st.frame_id ≤ (transform_ip st env).state.frame_id := by
  unfold transform_ip
  split_ifs <;> simp_all

/-- Base example state: the scenario rx=4, tx=2 (trn=8), 64 chirps,
256 ADC samples, target 10 fps, with all resources acquired. -/
def baseState : RadarState :=
  { num_rx := 4, num_tx := 2, num_chirps := 64, adc_samples := 256, trn := 8,
    frame_rate := 10, frame_duration := some 100000000, last_frame_time := none,
    frame_id := 0, total_frames := 0, total_processing_time := 0,
    input_data := [], output_data := [],
    libradar_handle := true, radarGetMemSize_fn := true, radarInitHandle_fn := true,
    radarDetection_fn := true, radarClustering_fn := true, radarTracking_fn := true,
    radarDestroyHandle_fn := true, radar_handle := true, radar_buffer := true,
    radar_buffer_size := 1024, radar_config := true }

/-- Base example environment: correctly sized frame, no clock, all engine
stages succeeding. -/
def baseEnv : FrameEnv :=
  { mapOk := true, bufSize := 1048576, bufData := [], clock := none,
    detectRet := R_SUCCESS, clusterRet := R_SUCCESS, trackRet := R_SUCCESS,
    metaOk := true, dt := 1 }

/-- Witness for C3 at the base state and environment. -/
theorem spec_c3_frame_counters_witness :
    (((transform_ip baseState baseEnv).state.frame_id = baseState.frame_id + 1 ∧
      (transform_ip baseState baseEnv).state.total_frames = baseState.total_frames + 1) ↔
      ((transform_ip baseState baseEnv).detectCalled = true ∧
       baseEnv.detectRet = R_SUCCESS ∧
       (transform_ip baseState baseEnv).clusterCalled = true ∧
       baseEnv.clusterRet = R_SUCCESS ∧
       (transform_ip baseState baseEnv).trackCalled = true ∧
       baseEnv.trackRet = R_SUCCESS)) ∧
    ((transform_ip baseState baseEnv).flow = GstFlowReturn.error →
      (transform_ip baseState baseEnv).state.frame_id = baseState.frame_id ∧
      (transform_ip baseState baseEnv).state.total_frames = baseState.total_frames ∧
      (transform_ip baseState baseEnv).meta = none) ∧
    baseState.frame_id ≤ (transform_ip baseState baseEnv).state.frame_id :=
  spec_c3_frame_counters baseState baseEnv

/-- C4: a frame whose byte length differs by any amount from
`trn * num_chirps * adc_samples * 8` is rejected with an error before any
engine stage runs or any staging buffer is touched, and `frame_id`,
`total_frames` and `total_processing_time` keep their values.  The
hypothesis `trn * num_chirps * adc_samples < 2 ^ 32` says the 32-bit
`guint` product does not wrap (true of every realistic configuration and of
the documented scenario). -/
theorem spec_c4_frame_size_mismatch (st : RadarState) (env : FrameEnv)
    (hw : st.trn * st.num_chirps * st.adc_samples < U32)
    (hm : env.bufSize ≠ st.trn * st.num_chirps * st.adc_samples * 8) :
    (transform_ip st env).flow = GstFlowReturn.error ∧
    (transform_ip st env).detectCalled = false ∧
    (transform_ip st env).clusterCalled = false ∧
    (transform_ip st env).trackCalled = false ∧
    (transform_ip st env).meta = none ∧
    (transform_ip st env).state.total_frames = st.total_frames ∧
    (transform_ip st env).state.total_processing_time = st.total_processing_time ∧
    (transform_ip st env).state.frame_id = st.frame_id ∧
    (transform_ip st env).state.input_data = st.input_data ∧
    (transform_ip st env).state.output_data = st.output_data := by
  have hexp : expectedFrameSize st = st.trn * st.num_chirps * st.adc_samples * 8 := by
    unfold expectedFrameSize
    rw [Nat.mod_eq_of_lt hw]
  unfold transform_ip
  rw [hexp]
  split_ifs <;> simp_all

/-- Environment presenting a 1,048,575-byte frame (one byte short). -/
def shortFrameEnv : FrameEnv := { baseEnv with bufSize := 1048575 }

/-- Witness for C4 at the documented scenario: trn = 8, 64 chirps, 256
samples gives an expected frame of 1,048,576 bytes, and a 1,048,575-byte
frame is rejected without touching the counters. -/
theorem spec_c4_frame_size_mismatch_witness :
    expectedFrameSize baseState = 1048576 ∧
    baseState.trn * baseState.num_chirps * baseState.adc_samples < U32 ∧
    shortFrameEnv.bufSize ≠
      baseState.trn * baseState.num_chirps * baseState.adc_samples * 8 ∧
    ((transform_ip baseState shortFrameEnv).flow = GstFlowReturn.error ∧
     (transform_ip baseState shortFrameEnv).detectCalled = false ∧
     (transform_ip baseState shortFrameEnv).clusterCalled = false ∧
     (transform_ip baseState shortFrameEnv).trackCalled = false ∧
     (transform_ip baseState shortFrameEnv).meta = none ∧
     (transform_ip baseState shortFrameEnv).state.total_frames = baseState.total_frames ∧
     (transform_ip baseState shortFrameEnv).state.total_processing_time =
       baseState.total_processing_time ∧
     (transform_ip baseState shortFrameEnv).state.frame_id = baseState.frame_id ∧
     (transform_ip baseState shortFrameEnv).state.input_data = baseState.input_data ∧
     (transform_ip baseState shortFrameEnv).state.output_data = baseState.output_data) :=
  ⟨by decide, by decide, by decide,
    spec_c4_frame_size_mismatch baseState shortFrameEnv (by decide) (by decide)⟩

/-- The `PROP_FRAME_RATE` branch of `gst_radar_process_set_property`
(lines 132-139): a positive rate sets
`frame_duration = GST_SECOND / frame_rate` (truncated to `GstClockTime`),
any rate ≤ 0 sets `frame_duration = GST_CLOCK_TIME_NONE`. -/
def set_frame_rate (rate : ℚ) : Option ℕ :=
  if rate > 0 then some ⌊(1000000000 : ℚ) / rate⌋₊ else none

lemma rate_control_some (fd l t1 t2 : ℕ) :
    rate_control (some fd) (some l) (some (t1, t2)) =
      if gstSub t1 l < fd then (some (gstSub fd (gstSub t1 l)), some t2)
      else (none, some t2) := rfl

/-- C8: with pacing enabled and a clock present, the first frame (unset
`last_frame_time`) is never delayed and the post-call clock read is
recorded; a later frame arriving `elapsed = t1 - last < frame_duration`
after its predecessor sleeps `frame_duration - elapsed` and records the
post-wait read; a frame arriving late enough sleeps nothing; a configured
rate ≤ 0 yields `frame_duration = GST_CLOCK_TIME_NONE`, and with that
setting the limiter is pass-through on every frame. -/
theorem spec_c8_rate_limiter (st : RadarState) (env : FrameEnv)
    (fd t1 t2 l : ℕ) (rate : ℚ) :
    (st.frame_duration = some fd → env.clock = some (t1, t2) →
      st.last_frame_time = none →
      (transform_ip st env).slept = none ∧
      (transform_ip st env).state.last_frame_time = some t2) ∧
    (st.frame_duration = some fd → env.clock = some (t1, t2) →
      st.last_frame_time = some l → l ≤ t1 → t1 < U64 → fd < U64 →
      t1 - l < fd →
      (transform_ip st env).slept = some (fd - (t1 - l)) ∧
      (transform_ip st env).state.last_frame_time = some t2) ∧
    (st.frame_duration = some fd → env.clock = some (t1, t2) →
      st.last_frame_time = some l → l ≤ t1 → t1 < U64 → fd ≤ t1 - l →
      (transform_ip st env).slept = none ∧
      (transform_ip st env).state.last_frame_time = some t2) ∧
    (rate ≤ 0 → set_frame_rate rate = none) ∧
    (st.frame_duration = none →
      (transform_ip st env).slept = none ∧
      (transform_ip st env).state.last_frame_time = st.last_frame_time) := by
  refine ⟨?_, ?_, ?_, ?_, ?_⟩
  · intro hfd hck hlast
    rw [transform_slept, transform_last, hfd, hck, hlast]
    exact ⟨rfl, rfl⟩
  · intro hfd hck hlast hle h1 hfd64 helap
    rw [transform_slept, transform_last, hfd, hck, hlast, rate_control_some,
      gstSub_eq t1 l hle h1, if_pos helap,
      gstSub_eq fd (t1 - l) (le_of_lt helap) hfd64]
    exact ⟨rfl, rfl⟩
  · intro hfd hck hlast hle h1 hlate
    rw [transform_slept, transform_last, hfd, hck, hlast, rate_control_some,
      gstSub_eq t1 l hle h1, if_neg (Nat.not_lt.mpr hlate)]
    exact ⟨rfl, rfl⟩
  · intro hr
    unfold set_frame_rate
    rw [if_neg (not_lt.mpr hr)]
  · intro hfd
    rw [transform_slept, transform_last, hfd]
    exact ⟨rfl, rfl⟩

/-- Pacing example: 100 ms frame duration, previous frame at time 0. -/
def pacingState : RadarState :=
  { baseState with frame_duration := some 100000000, last_frame_time := some 0 }

/-- Pacing example environment: clock reads 20 ms before the wait and
105 ms after it. -/
def pacingEnv : FrameEnv := { baseEnv with clock := some (20000000, 105000000) }

/-- Witness for C8: at 10 fps (100 ms frame duration) a frame arriving
20 ms after its predecessor sleeps 80 ms; a first frame is not delayed;
a negative configured rate disables limiting. -/
theorem spec_c8_rate_limiter_witness :
    ((0 : ℕ) ≤ 20000000 ∧ (20000000 : ℕ) < U64 ∧ (100000000 : ℕ) < U64 ∧
      20000000 - 0 < 100000000) ∧
    ((transform_ip pacingState pacingEnv).slept =
        some (100000000 - (20000000 - 0)) ∧
      (transform_ip pacingState pacingEnv).state.last_frame_time =
        some 105000000) ∧
    (100000000 - (20000000 - 0) = 80000000) ∧
    ((transform_ip { pacingState with last_frame_time := none } pacingEnv).slept =
        none ∧
      (transform_ip { pacingState with last_frame_time := none }
          pacingEnv).state.last_frame_time = some 105000000) ∧
    set_frame_rate (-1) = none := by
  refine ⟨⟨by decide, by decide, by decide, by decide⟩, ?_, by decide, ?_, ?_⟩
  · exact (spec_c8_rate_limiter pacingState pacingEnv 100000000 20000000
      105000000 0 (-1)).2.1 rfl rfl rfl (by decide) (by decide) (by decide)
      (by decide)
  · exact (spec_c8_rate_limiter { pacingState with last_frame_time := none }
      pacingEnv 100000000 20000000 105000000 0 (-1)).1 rfl rfl rfl
  · exact (spec_c8_rate_limiter pacingState pacingEnv 100000000 20000000
      105000000 0 (-1)).2.2.2.1 (by norm_num)

/-- The fields of `RadarConfig` (radar_config.hpp).  C++ `int` fields are
modelled as `ℕ` (the configurations of interest are non-negative), `float`
and `double` fields as exact rationals, and enum-typed fields by their
underlying integer value. -/
structure RadarConfig where
  num_rx : ℕ
  num_tx : ℕ
  start_frequency : ℚ
  idle : ℚ
  adc_start_time : ℚ
  ramp_end_time : ℚ
  freq_slope_const : ℚ
  adc_samples : ℕ
  adc_sample_rate : ℚ
  num_chirps : ℕ
  fps : ℚ
  range_win_type : ℕ
  doppler_win_type : ℕ
  aoa_estimation_type : ℕ
  doppler_cfar_method : ℕ
  doppler_pfa : ℚ
  doppler_win_guard_len : ℕ
  doppler_win_train_len : ℕ
  range_cfar_method : ℕ
  range_pfa : ℚ
  range_win_guard_len : ℕ
  range_win_train_len : ℕ
  eps : ℚ
  weight : ℚ
  min_points_in_cluster : ℕ
  max_clusters : ℕ
  max_points : ℕ
  tracker_association_threshold : ℚ
  measurement_noise_variance : ℚ
  time_per_frame : ℚ
  iir_forget_factor : ℚ
  tracker_active_threshold : ℕ
  tracker_forget_threshold : ℕ

/-- The `RadarConfig` default constructor (radar_config.hpp lines 63-73). -/
def defaultRadarConfig : RadarConfig :=
  { num_rx := 4, num_tx := 2, start_frequency := 77, idle := 4,
    adc_start_time := 6, ramp_end_time := 32, freq_slope_const := 30,
    adc_samples := 256, adc_sample_rate := 10000, num_chirps := 64, fps := 10,
    range_win_type := 1, doppler_win_type := 1, aoa_estimation_type := 1,
    doppler_cfar_method := 1, doppler_pfa := 2, doppler_win_guard_len := 4,
    doppler_win_train_len := 8, range_cfar_method := 1, range_pfa := 3,
    range_win_guard_len := 6, range_win_train_len := 10, eps := 5,
    weight := 0, min_points_in_cluster := 5, max_clusters := 20,
    max_points := 1000, tracker_association_threshold := 2,
    measurement_noise_variance := 1 / 10, time_per_frame := 10,
    iir_forget_factor := 1, tracker_active_threshold := 0,
    tracker_forget_threshold := 0 }

/-- `gst_radar_process_init` (lines 75-102): all counters zero, clock
sentinels unset, all pointers null. -/
def initState : RadarState :=
  { num_rx := 0, num_tx := 0, num_chirps := 0, adc_samples := 0, trn := 0,
    frame_rate := 0, frame_duration := none, last_frame_time := none,
    frame_id := 0, total_frames := 0, total_processing_time := 0,
    input_data := [], output_data := [],
    libradar_handle := false, radarGetMemSize_fn := false,
    radarInitHandle_fn := false, radarDetection_fn := false,
    radarClustering_fn := false, radarTracking_fn := false,
    radarDestroyHandle_fn := false, radar_handle := false,
    radar_buffer := false, radar_buffer_size := 0, radar_config := false }

/-- External outcomes consumed by `gst_radar_process_start`: the result of
`RadarConfig::load_from_json` (none = load failure or exception), whether
`dlopen` succeeds, whether each of the six `dlsym` lookups resolves, the
status code and size written by `radarGetMemSize`, whether `posix_memalign`
succeeds, and the status code of `radarInitHandle`. -/
structure StartEnv where
  config : Option RadarConfig
  dlopenOk : Bool
  symGetMemSize : Bool
  symInitHandle : Bool
  symDetection : Bool
  symClustering : Bool
  symTracking : Bool
  symDestroyHandle : Bool
  memSizeRet : ℕ
  memSize : ℕ
  allocOk : Bool
  initRet : ℕ

/-- Result of `gst_radar_process_start`: the returned boolean, the successor
state, and whether the `radarGetMemSize` / `radarInitHandle` engine calls
were reached. -/
structure StartOutcome where
  ok : Bool
  state : RadarState
  getMemSizeCalled : Bool
  initCalled : Bool

/-- State of the filter after the configuration block of
`gst_radar_process_start` (lines 180-262) followed by the `dlopen` call
(line 274): radar parameters copied from the loaded config, `trn` computed
as the 32-bit product `num_rx * num_tx`, `radar_handle` nulled (line 245),
both staging buffers resized to `trn * num_chirps * adc_samples` complex
samples, `radar_buffer_size` zeroed, and `libradar_handle` holding the
`dlopen` result. -/
def startConfigured (st : RadarState) (cfg : RadarConfig) (dl : Bool) : RadarState :=
  { st with
      num_rx := cfg.num_rx, num_tx := cfg.num_tx,
      num_chirps := cfg.num_chirps, adc_samples := cfg.adc_samples,
      trn := cfg.num_rx * cfg.num_tx % U32, radar_handle := false,
      input_data := List.replicate
        (cfg.num_rx * cfg.num_tx % U32 * cfg.num_chirps * cfg.adc_samples % U32)
        ((0 : ℚ), (0 : ℚ)),
      output_data := List.replicate
        (cfg.num_rx * cfg.num_tx % U32 * cfg.num_chirps * cfg.adc_samples % U32)
        ((0 : ℚ), (0 : ℚ)),
      radar_buffer_size := 0, libradar_handle := dl }

/-- State after all six `dlsym` assignments (lines 285-337) when every
lookup resolved. -/
def startBound (st : RadarState) (cfg : RadarConfig) (e : StartEnv) : RadarState :=
  { startConfigured st cfg true with
      radarGetMemSize_fn := e.symGetMemSize,
      radarInitHandle_fn := e.symInitHandle,
      radarDetection_fn := e.symDetection,
      radarClustering_fn := e.symClustering,
      radarTracking_fn := e.symTracking,
      radarDestroyHandle_fn := e.symDestroyHandle }

@[simp] lemma startConfigured_radar_handle (st : RadarState) (cfg : RadarConfig)
    (dl : Bool) : (startConfigured st cfg dl).radar_handle = false := rfl

@[simp] lemma startConfigured_radar_buffer (st : RadarState) (cfg : RadarConfig)
    (dl : Bool) : (startConfigured st cfg dl).radar_buffer = st.radar_buffer := rfl

@[simp] lemma startConfigured_libradar (st : RadarState) (cfg : RadarConfig)
    (dl : Bool) : (startConfigured st cfg dl).libradar_handle = dl := rfl

@[simp] lemma startConfigured_destroy_fn (st : RadarState) (cfg : RadarConfig)
    (dl : Bool) :
    (startConfigured st cfg dl).radarDestroyHandle_fn = st.radarDestroyHandle_fn := rfl

@[simp] lemma startBound_radar_handle (st : RadarState) (cfg : RadarConfig)
    (e : StartEnv) : (startBound st cfg e).radar_handle = false := rfl

@[simp] lemma startBound_radar_buffer (st : RadarState) (cfg : RadarConfig)
    (e : StartEnv) : (startBound st cfg e).radar_buffer = st.radar_buffer := rfl

@[simp] lemma startBound_libradar (st : RadarState) (cfg : RadarConfig)
    (e : StartEnv) : (startBound st cfg e).libradar_handle = true := rfl

@[simp] lemma startBound_destroy_fn (st : RadarState) (cfg : RadarConfig)
    (e : StartEnv) :
    (startBound st cfg e).radarDestroyHandle_fn = e.symDestroyHandle := rfl

/-- `gst_radar_process_start` (lines 162-388): config load, parameter and
staging-buffer setup, `dlopen`, the six `dlsym` bindings each of which on
failure closes the module and nulls the handle before returning FALSE, the
scratch-size query, aligned allocation, and handle initialization (freeing
the scratch buffer again if the engine rejects the parameters).  Each early
return carries the state with exactly the mutations performed up to that
point. -/
def start (st : RadarState) (env : StartEnv) : StartOutcome :=
  if !st.radar_config then ⟨false, st, false, false⟩
  else
    match env.config with
    | none => ⟨false, st, false, false⟩
    | some cfg =>
      if !env.dlopenOk then ⟨false, startConfigured st cfg false, false, false⟩
      else if !env.symGetMemSize then
        ⟨false, { startConfigured st cfg true with
                  radarGetMemSize_fn := env.symGetMemSize,
                  libradar_handle := false }, false, false⟩
      else if !env.symInitHandle then
        ⟨false, { startConfigured st cfg true with
                  radarGetMemSize_fn := env.symGetMemSize,
                  radarInitHandle_fn := env.symInitHandle,
                  libradar_handle := false }, false, false⟩
      else if !env.symDetection then
        ⟨false, { startConfigured st cfg true with
                  radarGetMemSize_fn := env.symGetMemSize,
                  radarInitHandle_fn := env.symInitHandle,
                  radarDetection_fn := env.symDetection,
                  libradar_handle := false }, false, false⟩
      else if !env.symClustering then
        ⟨false, { startConfigured st cfg true with
                  radarGetMemSize_fn := env.symGetMemSize,
                  radarInitHandle_fn := env.symInitHandle,
                  radarDetection_fn := env.symDetection,
                  radarClustering_fn := env.symClustering,
                  libradar_handle := false }, false, false⟩
      else if !env.symTracking then
        ⟨false, { startConfigured st cfg true with
                  radarGetMemSize_fn := env.symGetMemSize,
                  radarInitHandle_fn := env.symInitHandle,
                  radarDetection_fn := env.symDetection,
                  radarClustering_fn := env.symClustering,
                  radarTracking_fn := env.symTracking,
                  libradar_handle := false }, false, false⟩
      else if !env.symDestroyHandle then
        ⟨false, { startBound st cfg env with libradar_handle := false },
          false, false⟩
      else if env.memSizeRet != R_SUCCESS || env.memSize == 0 then
        ⟨false, { startBound st cfg env with radar_buffer_size := env.memSize },
          true, false⟩
      else if !env.allocOk then
        ⟨false, { startBound st cfg env with
                  radar_buffer_size := env.memSize, radar_buffer := false },
          true, false⟩
      else if env.initRet != R_SUCCESS then
        ⟨false, { startBound st cfg env with
                  radar_buffer_size := env.memSize, radar_buffer := false },
          true, true⟩
      else
        ⟨true, { startBound st cfg env with
                 radar_buffer_size := env.memSize, radar_buffer := true,
                 radar_handle := true, last_frame_time := none },
          true, true⟩

/-- The three guarded resource releases of teardown. -/
inductive ReleaseAction where
  | destroyHandle
  | unloadModule
  | freeScratch
  deriving Repr, DecidableEq

/-- `gst_radar_process_stop` (lines 390-440): destroys the engine handle if
both the handle and the destroy entry point are present (a non-success
destroy code is only logged, which is why the code is ignored here), then
closes the module if loaded, then frees the scratch buffer if allocated;
each pointer is nulled after its release, the staging buffers and clock
sentinel are reset. -/
def stop (st : RadarState) (_destroyRet : ℕ) : RadarState × List ReleaseAction :=
  let p1 :=
    if st.radar_handle && st.radarDestroyHandle_fn then
      ({ st with radar_handle := false }, [ReleaseAction.destroyHandle])
    else (st, [])
  let p2 :=
    if p1.1.libradar_handle then
      ({ p1.1 with libradar_handle := false }, p1.2 ++ [ReleaseAction.unloadModule])
    else p1
  let p3 :=
    if p2.1.radar_buffer then
      ({ p2.1 with radar_buffer := false }, p2.2 ++ [ReleaseAction.freeScratch])
    else p2
  let st4 := { p3.1 with radar_buffer_size := 0, input_data := [], output_data := [] }
  ({ st4 with last_frame_time := none }, p3.2)

/-- `gst_radar_process_finalize` (lines 104-122): frees the config string
and staging buffers, then frees the scratch buffer if allocated and closes
the module if loaded, nulling each pointer after release. -/
def finalize (st : RadarState) : RadarState × List ReleaseAction :=
  let st0 := { st with radar_config := false, input_data := [], output_data := [] }
  let p1 :=
    if st0.radar_buffer then
      ({ st0 with radar_buffer := false }, [ReleaseAction.freeScratch])
    else (st0, [])
  let p2 :=
    if p1.1.libradar_handle then
      ({ p1.1 with libradar_handle := false }, p1.2 ++ [ReleaseAction.unloadModule])
    else p1
  p2

/-- A freshly initialized element with the `radar-config` property set. -/
def startReadyState : RadarState := { initState with radar_config := true }

lemma start_no_config (st0 : RadarState) (env : StartEnv)
    (h : st0.radar_config = false) :
    start st0 env = ⟨false, st0, false, false⟩ := by
  unfold start; rw [h]; rfl

lemma start_config_fail (st0 : RadarState) (env : StartEnv)
    (h : st0.radar_config = true) (hc : env.config = none) :
    start st0 env = ⟨false, st0, false, false⟩ := by
  unfold start; rw [h, hc]; rfl

lemma start_dlopen_fail (st0 : RadarState) (env : StartEnv) (cfg : RadarConfig)
    (h : st0.radar_config = true) (hc : env.config = some cfg)
    (hdl : env.dlopenOk = false) :
    start st0 env = ⟨false, startConfigured st0 cfg false, false, false⟩ := by
  unfold start; rw [h, hc, hdl]; rfl

lemma start_sym1_fail (st0 : RadarState) (env : StartEnv) (cfg : RadarConfig)
    (h : st0.radar_config = true) (hc : env.config = some cfg)
    (hdl : env.dlopenOk = true) (h1 : env.symGetMemSize = false) :
    start st0 env = ⟨false, { startConfigured st0 cfg true with
      radarGetMemSize_fn := false, libradar_handle := false }, false, false⟩ := by
  unfold start; rw [h, hc, hdl, h1]; rfl

lemma start_sym2_fail (st0 : RadarState) (env : StartEnv) (cfg : RadarConfig)
    (h : st0.radar_config = true) (hc : env.config = some cfg)
    (hdl : env.dlopenOk = true) (h1 : env.symGetMemSize = true)
    (h2 : env.symInitHandle = false) :
    start st0 env = ⟨false, { startConfigured st0 cfg true with
      radarGetMemSize_fn := true, radarInitHandle_fn := false,
      libradar_handle := false }, false, false⟩ := by
  unfold start; rw [h, hc, hdl, h1, h2]; rfl

lemma start_sym3_fail (st0 : RadarState) (env : StartEnv) (cfg : RadarConfig)
    (h : st0.radar_config = true) (hc : env.config = some cfg)
    (hdl : env.dlopenOk = true) (h1 : env.symGetMemSize = true)
    (h2 : env.symInitHandle = true) (h3 : env.symDetection = false) :
    start st0 env = ⟨false, { startConfigured st0 cfg true with
      radarGetMemSize_fn := true, radarInitHandle_fn := true,
      radarDetection_fn := false, libradar_handle := false }, false, false⟩ := by
  unfold start; rw [h, hc, hdl, h1, h2, h3]; rfl

lemma start_sym4_fail (st0 : RadarState) (env : StartEnv) (cfg : RadarConfig)
    (h : st0.radar_config = true) (hc : env.config = some cfg)
    (hdl : env.dlopenOk = true) (h1 : env.symGetMemSize = true)
    (h2 : env.symInitHandle = true) (h3 : env.symDetection = true)
    (h4 : env.symClustering = false) :
    start st0 env = ⟨false, { startConfigured st0 cfg true with
      radarGetMemSize_fn := true, radarInitHandle_fn := true,
      radarDetection_fn := true, radarClustering_fn := false,
      libradar_handle := false }, false, false⟩ := by
  unfold start; rw [h, hc, hdl, h1, h2, h3, h4]; rfl

lemma start_sym5_fail (st0 : RadarState) (env : StartEnv) (cfg : RadarConfig)
    (h : st0.radar_config = true) (hc : env.config = some cfg)
    (hdl : env.dlopenOk = true) (h1 : env.symGetMemSize = true)
    (h2 : env.symInitHandle = true) (h3 : env.symDetection = true)
    (h4 : env.symClustering = true) (h5 : env.symTracking = false) :
    start st0 env = ⟨false, { startConfigured st0 cfg true with
      radarGetMemSize_fn := true, radarInitHandle_fn := true,
      radarDetection_fn := true, radarClustering_fn := true,
      radarTracking_fn := false, libradar_handle := false }, false, false⟩ := by
  unfold start; rw [h, hc, hdl, h1, h2, h3, h4, h5]; rfl

lemma start_sym6_fail (st0 : RadarState) (env : StartEnv) (cfg : RadarConfig)
    (h : st0.radar_config = true) (hc : env.config = some cfg)
    (hdl : env.dlopenOk = true) (h1 : env.symGetMemSize = true)
    (h2 : env.symInitHandle = true) (h3 : env.symDetection = true)
    (h4 : env.symClustering = true) (h5 : env.symTracking = true)
    (h6 : env.symDestroyHandle = false) :
    start st0 env = ⟨false, { startBound st0 cfg env with
      libradar_handle := false }, false, false⟩ := by
  unfold start; rw [h, hc, hdl, h1, h2, h3, h4, h5, h6]; rfl

lemma start_memsize_fail (st0 : RadarState) (env : StartEnv) (cfg : RadarConfig)
    (h : st0.radar_config = true) (hc : env.config = some cfg)
    (hdl : env.dlopenOk = true) (h1 : env.symGetMemSize = true)
    (h2 : env.symInitHandle = true) (h3 : env.symDetection = true)
    (h4 : env.symClustering = true) (h5 : env.symTracking = true)
    (h6 : env.symDestroyHandle = true)
    (hq : (env.memSizeRet != R_SUCCESS || env.memSize == 0) = true) :
    start st0 env = ⟨false, { startBound st0 cfg env with
      radar_buffer_size := env.memSize }, true, false⟩ := by
  unfold start; rw [h, hc, hdl, h1, h2, h3, h4, h5, h6, hq]; rfl

lemma start_alloc_fail (st0 : RadarState) (env : StartEnv) (cfg : RadarConfig)
    (h : st0.radar_config = true) (hc : env.config = some cfg)
    (hdl : env.dlopenOk = true) (h1 : env.symGetMemSize = true)
    (h2 : env.symInitHandle = true) (h3 : env.symDetection = true)
    (h4 : env.symClustering = true) (h5 : env.symTracking = true)
    (h6 : env.symDestroyHandle = true)
    (hq : (env.memSizeRet != R_SUCCESS || env.memSize == 0) = false)
    (hal : env.allocOk = false) :
    start st0 env = ⟨false, { startBound st0 cfg env with
      radar_buffer_size := env.memSize, radar_buffer := false },
      true, false⟩ := by
  unfold start; rw [h, hc, hdl, h1, h2, h3, h4, h5, h6, hq, hal]; rfl

lemma start_init_fail (st0 : RadarState) (env : StartEnv) (cfg : RadarConfig)
    (h : st0.radar_config = true) (hc : env.config = some cfg)
    (hdl : env.dlopenOk = true) (h1 : env.symGetMemSize = true)
    (h2 : env.symInitHandle = true) (h3 : env.symDetection = true)
    (h4 : env.symClustering = true) (h5 : env.symTracking = true)
    (h6 : env.symDestroyHandle = true)
    (hq : (env.memSizeRet != R_SUCCESS || env.memSize == 0) = false)
    (hal : env.allocOk = true) (hin : (env.initRet != R_SUCCESS) = true) :
    start st0 env = ⟨false, { startBound st0 cfg env with
      radar_buffer_size := env.memSize, radar_buffer := false },
      true, true⟩ := by
  unfold start; rw [h, hc, hdl, h1, h2, h3, h4, h5, h6, hq, hal, hin]; rfl

lemma start_success (st0 : RadarState) (env : StartEnv) (cfg : RadarConfig)
    (h : st0.radar_config = true) (hc : env.config = some cfg)
    (hdl : env.dlopenOk = true) (h1 : env.symGetMemSize = true)
    (h2 : env.symInitHandle = true) (h3 : env.symDetection = true)
    (h4 : env.symClustering = true) (h5 : env.symTracking = true)
    (h6 : env.symDestroyHandle = true)
    (hq : (env.memSizeRet != R_SUCCESS || env.memSize == 0) = false)
    (hal : env.allocOk = true) (hin : (env.initRet != R_SUCCESS) = false) :
    start st0 env = ⟨true, { startBound st0 cfg env with
      radar_buffer_size := env.memSize, radar_buffer := true,
      radar_handle := true, last_frame_time := none }, true, true⟩ := by
  unfold start
  rw [h, hc, hdl, h1, h2, h3, h4, h5, h6, hq, hal, hin]
  rfl

lemma start_handle_fn (st0 : RadarState) (env : StartEnv)
    (h0 : st0.radar_handle = true → st0.radarDestroyHandle_fn = true) :
    (start st0 env).state.radar_handle = true →
    (start st0 env).state.radarDestroyHandle_fn = true := by
  cases h : st0.radar_config with
  | false => rw [start_no_config st0 env h]; exact h0
  | true =>
    cases hc : env.config with
    | none => rw [start_config_fail st0 env h hc]; exact h0
    | some cfg =>
      cases hdl : env.dlopenOk with
      | false =>
        rw [start_dlopen_fail st0 env cfg h hc hdl]
        exact fun hx => Bool.noConfusion hx
      | true =>
        cases h1 : env.symGetMemSize with
        | false =>
          rw [start_sym1_fail st0 env cfg h hc hdl h1]
          exact fun hx => Bool.noConfusion hx
        | true =>
          cases h2 : env.symInitHandle with
          | false =>
            rw [start_sym2_fail st0 env cfg h hc hdl h1 h2]
            exact fun hx => Bool.noConfusion hx
          | true =>
            cases h3 : env.symDetection with
            | false =>
              rw [start_sym3_fail st0 env cfg h hc hdl h1 h2 h3]
              exact fun hx => Bool.noConfusion hx
            | true =>
              cases h4 : env.symClustering with
              | false =>
                rw [start_sym4_fail st0 env cfg h hc hdl h1 h2 h3 h4]
                exact fun hx => Bool.noConfusion hx
              | true =>
                cases h5 : env.symTracking with
                | false =>
                  rw [start_sym5_fail st0 env cfg h hc hdl h1 h2 h3 h4 h5]
                  exact fun hx => Bool.noConfusion hx
                | true =>
                  cases h6 : env.symDestroyHandle with
                  | false =>
                    rw [start_sym6_fail st0 env cfg h hc hdl h1 h2 h3 h4 h5 h6]
                    exact fun hx => Bool.noConfusion hx
                  | true =>
                    cases hq : (env.memSizeRet != R_SUCCESS || env.memSize == 0) with
                    | true =>
                      rw [start_memsize_fail st0 env cfg h hc hdl h1 h2 h3 h4 h5 h6 hq]
                      exact fun hx => Bool.noConfusion hx
                    | false =>
                      cases hal : env.allocOk with
                      | false =>
                        rw [start_alloc_fail st0 env cfg h hc hdl h1 h2 h3 h4 h5 h6 hq hal]
                        exact fun hx => Bool.noConfusion hx
                      | true =>
                        cases hin : (env.initRet != R_SUCCESS) with
                        | false =>
                          rw [start_success st0 env cfg h hc hdl h1 h2 h3 h4 h5 h6 hq hal hin]
                          exact fun _ => h6
                        | true =>
                          rw [start_init_fail st0 env cfg h hc hdl h1 h2 h3 h4 h5 h6 hq hal hin]
                          exact fun hx => Bool.noConfusion hx

/-- C5: when the module loads, either all six engine entry points resolve
and start proceeds to the engine's memory-size query, or (any symbol
missing) start returns FALSE with the module unbound, no engine handle, no
scratch buffer and no engine call made — and a subsequent stop performs no
release at all, so nothing unacquired is touched. -/
theorem spec_c5_atomic_binding (env : StartEnv) (cfg : RadarConfig) (r : ℕ)
    (hcfg : env.config = some cfg) (hdl : env.dlopenOk = true) :
    ((env.symGetMemSize = true ∧ env.symInitHandle = true ∧
      env.symDetection = true ∧ env.symClustering = true ∧
      env.symTracking = true ∧ env.symDestroyHandle = true) →
      (start startReadyState env).getMemSizeCalled = true) ∧
    (¬(env.symGetMemSize = true ∧ env.symInitHandle = true ∧
      env.symDetection = true ∧ env.symClustering = true ∧
      env.symTracking = true ∧ env.symDestroyHandle = true) →
      (start startReadyState env).ok = false ∧
      (start startReadyState env).state.libradar_handle = false ∧
      (start startReadyState env).state.radar_handle = false ∧
      (start startReadyState env).state.radar_buffer = false ∧
      (start startReadyState env).getMemSizeCalled = false ∧
      (stop (start startReadyState env).state r).2 = []) := by
  have hrc : startReadyState.radar_config = true := rfl
  constructor
  · rintro ⟨h1, h2, h3, h4, h5, h6⟩
    cases hq : (env.memSizeRet != R_SUCCESS || env.memSize == 0) with
    | true =>
      rw [start_memsize_fail startReadyState env cfg hrc hcfg hdl h1 h2 h3 h4 h5 h6 hq]
    | false =>
      cases hal : env.allocOk with
      | false =>
        rw [start_alloc_fail startReadyState env cfg hrc hcfg hdl h1 h2 h3 h4 h5 h6 hq hal]
      | true =>
        cases hin : (env.initRet != R_SUCCESS) with
        | false =>
          rw [start_success startReadyState env cfg hrc hcfg hdl h1 h2 h3 h4 h5 h6 hq hal hin]
        | true =>
          rw [start_init_fail startReadyState env cfg hrc hcfg hdl h1 h2 h3 h4 h5 h6 hq hal hin]
  · intro hn
    cases h1 : env.symGetMemSize with
    | false =>
      rw [start_sym1_fail startReadyState env cfg hrc hcfg hdl h1]
      exact ⟨rfl, rfl, rfl, rfl, rfl, rfl⟩
    | true =>
      cases h2 : env.symInitHandle with
      | false =>
        rw [start_sym2_fail startReadyState env cfg hrc hcfg hdl h1 h2]
        exact ⟨rfl, rfl, rfl, rfl, rfl, rfl⟩
      | true =>
        cases h3 : env.symDetection with
        | false =>
          rw [start_sym3_fail startReadyState env cfg hrc hcfg hdl h1 h2 h3]
          exact ⟨rfl, rfl, rfl, rfl, rfl, rfl⟩
        | true =>
          cases h4 : env.symClustering with
          | false =>
            rw [start_sym4_fail startReadyState env cfg hrc hcfg hdl h1 h2 h3 h4]
            exact ⟨rfl, rfl, rfl, rfl, rfl, rfl⟩
          | true =>
            cases h5 : env.symTracking with
            | false =>
              rw [start_sym5_fail startReadyState env cfg hrc hcfg hdl h1 h2 h3 h4 h5]
              exact ⟨rfl, rfl, rfl, rfl, rfl, rfl⟩
            | true =>
              cases h6 : env.symDestroyHandle with
              | false =>
                rw [start_sym6_fail startReadyState env cfg hrc hcfg hdl h1 h2 h3 h4 h5 h6]
                exact ⟨rfl, rfl, rfl, rfl, rfl, rfl⟩
              | true =>
                exact absurd ⟨h1, h2, h3, h4, h5, h6⟩ hn

/-- A start environment in which the `radarDetection` symbol is missing. -/
def brokenEnv : StartEnv :=
  { config := some defaultRadarConfig, dlopenOk := true, symGetMemSize := true,
    symInitHandle := true, symDetection := false, symClustering := true,
    symTracking := true, symDestroyHandle := true, memSizeRet := R_SUCCESS,
    memSize := 64, allocOk := true, initRet := R_SUCCESS }

/-- Witness for C5: with `radarDetection` unresolvable, start fails with the
module unbound and a following stop releases nothing. -/
theorem spec_c5_atomic_binding_witness :
    ¬(brokenEnv.symGetMemSize = true ∧ brokenEnv.symInitHandle = true ∧
      brokenEnv.symDetection = true ∧ brokenEnv.symClustering = true ∧
      brokenEnv.symTracking = true ∧ brokenEnv.symDestroyHandle = true) ∧
    ((start startReadyState brokenEnv).ok = false ∧
     (start startReadyState brokenEnv).state.libradar_handle = false ∧
     (start startReadyState brokenEnv).state.radar_handle = false ∧
     (start startReadyState brokenEnv).state.radar_buffer = false ∧
     (start startReadyState brokenEnv).getMemSizeCalled = false ∧
     (stop (start startReadyState brokenEnv).state 0).2 = []) :=
  ⟨by decide,
    (spec_c5_atomic_binding brokenEnv defaultRadarConfig 0 rfl rfl).2 (by decide)⟩

/-- C7: teardown releases the scratch buffer only after the engine handle
has been destroyed (whenever a live handle exists, the destroy action heads
the release sequence); every release is guarded by acquisition of that
resource, the pointers are cleared, a second stop (or a second finalize)
releases nothing, and states produced by start keep the invariant that a
live handle implies a bound destroy entry point. -/
theorem spec_c7_teardown_order (st : RadarState) (r r2 : ℕ)
    (hinv : st.radar_handle = true → st.radarDestroyHandle_fn = true) :
    (st.radar_handle = true → ReleaseAction.freeScratch ∈ (stop st r).2 →
      (stop st r).2.head? = some ReleaseAction.destroyHandle) ∧
    (ReleaseAction.destroyHandle ∈ (stop st r).2 ↔
      st.radar_handle = true ∧ st.radarDestroyHandle_fn = true) ∧
    (ReleaseAction.unloadModule ∈ (stop st r).2 ↔ st.libradar_handle = true) ∧
    (ReleaseAction.freeScratch ∈ (stop st r).2 ↔ st.radar_buffer = true) ∧
    (stop st r).1.radar_handle = false ∧
    (stop st r).1.libradar_handle = false ∧
    (stop st r).1.radar_buffer = false ∧
    (stop (stop st r).1 r2).2 = [] ∧
    (ReleaseAction.freeScratch ∈ (finalize st).2 ↔ st.radar_buffer = true) ∧
    (ReleaseAction.unloadModule ∈ (finalize st).2 ↔ st.libradar_handle = true) ∧
    (finalize (finalize st).1).2 = [] ∧
    (∀ env : StartEnv, (start startReadyState env).state.radar_handle = true →
      (start startReadyState env).state.radarDestroyHandle_fn = true) := by
  have hstart : ∀ env : StartEnv,
      (start startReadyState env).state.radar_handle = true →
      (start startReadyState env).state.radarDestroyHandle_fn = true := by
    intro env
    exact start_handle_fn startReadyState env (by intro h; simp [startReadyState, initState] at h)
  cases hh : st.radar_handle <;> cases hf : st.radarDestroyHandle_fn <;>
    cases hm : st.libradar_handle <;> cases hb : st.radar_buffer <;>
    simp_all [stop, finalize]

/-- Witness for C7 at the fully acquired base state. -/
theorem spec_c7_teardown_order_witness :
    (baseState.radar_handle = true → ReleaseAction.freeScratch ∈ (stop baseState 0).2 →
      (stop baseState 0).2.head? = some ReleaseAction.destroyHandle) ∧
    (ReleaseAction.destroyHandle ∈ (stop baseState 0).2 ↔
      baseState.radar_handle = true ∧ baseState.radarDestroyHandle_fn = true) ∧
    (ReleaseAction.unloadModule ∈ (stop baseState 0).2 ↔
      baseState.libradar_handle = true) ∧
    (ReleaseAction.freeScratch ∈ (stop baseState 0).2 ↔
      baseState.radar_buffer = true) ∧
    (stop baseState 0).1.radar_handle = false ∧
    (stop baseState 0).1.libradar_handle = false ∧
    (stop baseState 0).1.radar_buffer = false ∧
    (stop (stop baseState 0).1 0).2 = [] ∧
    (ReleaseAction.freeScratch ∈ (finalize baseState).2 ↔
      baseState.radar_buffer = true) ∧
    (ReleaseAction.unloadModule ∈ (finalize baseState).2 ↔
      baseState.libradar_handle = true) ∧
    (finalize (finalize baseState).1).2 = [] ∧
    (∀ env : StartEnv, (start startReadyState env).state.radar_handle = true →
      (start startReadyState env).state.radarDestroyHandle_fn = true) :=
  spec_c7_teardown_order baseState 0 0 (fun _ => rfl)

/-- The `RadarBasicConfig[0]` object of the JSON input: each key that the
loader looks up, present or absent.  (A present key of the wrong JSON type
makes the whole load throw and is folded into `JsonInput.malformed`.) -/
structure JsonBasicSection where
  numRx : Option ℕ
  numTx : Option ℕ
  startFrequency : Option ℚ
  idle : Option ℚ
  adcStartTime : Option ℚ
  rampEndTime : Option ℚ
  freqSlopeConst : Option ℚ
  adcSamples : Option ℕ
  adcSampleRate : Option ℚ
  numChirps : Option ℕ
  fps : Option ℚ

/-- The `RadarDetectionConfig[0]` object of the JSON input. -/
structure JsonDetectionSection where
  rangeWinType : Option ℕ
  dopplerWinType : Option ℕ
  aoaEstimationType : Option ℕ
  dopplerCfarMethod : Option ℕ
  dopplerPfa : Option ℚ
  dopplerWinGuardLen : Option ℕ
  dopplerWinTrainLen : Option ℕ
  rangeCfarMethod : Option ℕ
  rangePfa : Option ℚ
  rangeWinGuardLen : Option ℕ
  rangeWinTrainLen : Option ℕ

/-- The `RadarClusteringConfig[0]` object of the JSON input. -/
structure JsonClusteringSection where
  eps : Option ℚ
  weight : Option ℚ
  minPointsInCluster : Option ℕ
  maxClusters : Option ℕ
  maxPoints : Option ℕ

/-- The `RadarTrackingConfig[0]` object of the JSON input. -/
structure JsonTrackingSection where
  trackerAssociationThreshold : Option ℚ
  measurementNoiseVariance : Option ℚ
  timePerFrame : Option ℚ
  iirForgetFactor : Option ℚ
  trackerActiveThreshold : Option ℕ
  trackerForgetThreshold : Option ℕ

/-- A parsed JSON document: each section is present exactly when the file
contains that key, it is an array, and the array is nonempty (the triple
condition checked at radar_config.hpp lines 86, 114, 143, 160). -/
structure RadarJsonDoc where
  basic : Option JsonBasicSection
  detection : Option JsonDetectionSection
  clustering : Option JsonClusteringSection
  tracking : Option JsonTrackingSection

/-- The input as seen by `RadarConfig::load_from_json`: an unreadable file
(line 78), input on which parsing or a typed field extraction throws
(caught at line 179), or a well-formed document. -/
inductive JsonInput where
  | unreadable
  | malformed
  | ok (doc : RadarJsonDoc)

/-- Lines 89-110: overwrite each basic field present in the document. -/
def applyBasic (c : RadarConfig) (b : JsonBasicSection) : RadarConfig :=
  { c with
      num_rx := b.numRx.getD c.num_rx,
      num_tx := b.numTx.getD c.num_tx,
      start_frequency := b.startFrequency.getD c.start_frequency,
      idle := b.idle.getD c.idle,
      adc_start_time := b.adcStartTime.getD c.adc_start_time,
      ramp_end_time := b.rampEndTime.getD c.ramp_end_time,
      freq_slope_const := b.freqSlopeConst.getD c.freq_slope_const,
      adc_samples := b.adcSamples.getD c.adc_samples,
      adc_sample_rate := b.adcSampleRate.getD c.adc_sample_rate,
      num_chirps := b.numChirps.getD c.num_chirps,
      fps := b.fps.getD c.fps }

/-- Lines 118-139: overwrite each detection field present in the document. -/
def applyDetection (c : RadarConfig) (d : JsonDetectionSection) : RadarConfig :=
  { c with
      range_win_type := d.rangeWinType.getD c.range_win_type,
      doppler_win_type := d.dopplerWinType.getD c.doppler_win_type,
      aoa_estimation_type := d.aoaEstimationType.getD c.aoa_estimation_type,
      doppler_cfar_method := d.dopplerCfarMethod.getD c.doppler_cfar_method,
      doppler_pfa := d.dopplerPfa.getD c.doppler_pfa,
      doppler_win_guard_len := d.dopplerWinGuardLen.getD c.doppler_win_guard_len,
      doppler_win_train_len := d.dopplerWinTrainLen.getD c.doppler_win_train_len,
      range_cfar_method := d.rangeCfarMethod.getD c.range_cfar_method,
      range_pfa := d.rangePfa.getD c.range_pfa,
      range_win_guard_len := d.rangeWinGuardLen.getD c.range_win_guard_len,
      range_win_train_len := d.rangeWinTrainLen.getD c.range_win_train_len }

/-- Lines 147-156: overwrite each clustering field present in the document. -/
def applyClustering (c : RadarConfig) (cl : JsonClusteringSection) : RadarConfig :=
  { c with
      eps := cl.eps.getD c.eps,
      weight := cl.weight.getD c.weight,
      min_points_in_cluster := cl.minPointsInCluster.getD c.min_points_in_cluster,
      max_clusters := cl.maxClusters.getD c.max_clusters,
      max_points := cl.maxPoints.getD c.max_points }

/-- Lines 164-175: overwrite each tracking field present in the document. -/
def applyTracking (c : RadarConfig) (t : JsonTrackingSection) : RadarConfig :=
  { c with
      tracker_association_threshold :=
        t.trackerAssociationThreshold.getD c.tracker_association_threshold,
      measurement_noise_variance :=
        t.measurementNoiseVariance.getD c.measurement_noise_variance,
      time_per_frame := t.timePerFrame.getD c.time_per_frame,
      iir_forget_factor := t.iirForgetFactor.getD c.iir_forget_factor,
      tracker_active_threshold :=
        t.trackerActiveThreshold.getD c.tracker_active_threshold,
      tracker_forget_threshold :=
        t.trackerForgetThreshold.getD c.tracker_forget_threshold }

/-- The configuration produced from a well-formed document: the default
constructor's values overwritten section by section in source order. -/
def loadedConfig (doc : RadarJsonDoc) : RadarConfig :=
  let c1 := match doc.basic with
    | none => defaultRadarConfig
    | some b => applyBasic defaultRadarConfig b
  let c2 := match doc.detection with
    | none => c1
    | some d => applyDetection c1 d
  let c3 := match doc.clustering with
    | none => c2
    | some cl => applyClustering c2 cl
  match doc.tracking with
  | none => c3
  | some t => applyTracking c3 t

/-- `RadarConfig::load_from_json` (radar_config.hpp lines 75-182): false for
an unreadable file or any parse/type-extraction exception, true otherwise,
with the member fields holding defaults overwritten by the present keys. -/
def load_from_json : JsonInput → Option RadarConfig
  | JsonInput.unreadable => none
  | JsonInput.malformed => none
  | JsonInput.ok doc => some (loadedConfig doc)

lemma loadedConfig_num_rx (doc : RadarJsonDoc) :
    (loadedConfig doc).num_rx =
      (doc.basic.bind JsonBasicSection.numRx).getD defaultRadarConfig.num_rx := by
  rcases doc with ⟨b, d, cl, tr⟩
  cases b <;> cases d <;> cases cl <;> cases tr <;>
    simp [loadedConfig, applyBasic, applyDetection, applyClustering, applyTracking]

lemma loadedConfig_num_tx (doc : RadarJsonDoc) :
    (loadedConfig doc).num_tx =
      (doc.basic.bind JsonBasicSection.numTx).getD defaultRadarConfig.num_tx := by
  rcases doc with ⟨b, d, cl, tr⟩
  cases b <;> cases d <;> cases cl <;> cases tr <;>
    simp [loadedConfig, applyBasic, applyDetection, applyClustering, applyTracking]

lemma loadedConfig_num_chirps (doc : RadarJsonDoc) :
    (loadedConfig doc).num_chirps =
      (doc.basic.bind JsonBasicSection.numChirps).getD defaultRadarConfig.num_chirps := by
  rcases doc with ⟨b, d, cl, tr⟩
  cases b <;> cases d <;> cases cl <;> cases tr <;>
    simp [loadedConfig, applyBasic, applyDetection, applyClustering, applyTracking]

lemma loadedConfig_adc_samples (doc : RadarJsonDoc) :
    (loadedConfig doc).adc_samples =
      (doc.basic.bind JsonBasicSection.adcSamples).getD defaultRadarConfig.adc_samples := by
  rcases doc with ⟨b, d, cl, tr⟩
  cases b <;> cases d <;> cases cl <;> cases tr <;>
    simp [loadedConfig, applyBasic, applyDetection, applyClustering, applyTracking]

lemma loadedConfig_fps (doc : RadarJsonDoc) :
    (loadedConfig doc).fps =
      (doc.basic.bind JsonBasicSection.fps).getD defaultRadarConfig.fps := by
  rcases doc with ⟨b, d, cl, tr⟩
  cases b <;> cases d <;> cases cl <;> cases tr <;>
    simp [loadedConfig, applyBasic, applyDetection, applyClustering, applyTracking]

lemma loadedConfig_max_points (doc : RadarJsonDoc) :
    (loadedConfig doc).max_points =
      (doc.clustering.bind JsonClusteringSection.maxPoints).getD
        defaultRadarConfig.max_points := by
  rcases doc with ⟨b, d, cl, tr⟩
  cases b <;> cases d <;> cases cl <;> cases tr <;>
    simp [loadedConfig, applyBasic, applyDetection, applyClustering, applyTracking]

lemma loadedConfig_max_clusters (doc : RadarJsonDoc) :
    (loadedConfig doc).max_clusters =
      (doc.clustering.bind JsonClusteringSection.maxClusters).getD
        defaultRadarConfig.max_clusters := by
  rcases doc with ⟨b, d, cl, tr⟩
  cases b <;> cases d <;> cases cl <;> cases tr <;>
    simp [loadedConfig, applyBasic, applyDetection, applyClustering, applyTracking]

/-- C9: an unreadable file and malformed input load as failure; every
well-formed document loads successfully, and any absent field keeps its
default — in particular rx = 4, tx = 2, chirps = 64, adc_samples = 256,
fps = 10, max_points = 1000 and max_clusters = 20. -/
theorem spec_c9_config_loading :
    load_from_json JsonInput.unreadable = none ∧
    load_from_json JsonInput.malformed = none ∧
    (∀ doc : RadarJsonDoc,
      load_from_json (JsonInput.ok doc) = some (loadedConfig doc) ∧
      (doc.basic.bind JsonBasicSection.numRx = none →
        (loadedConfig doc).num_rx = 4) ∧
      (doc.basic.bind JsonBasicSection.numTx = none →
        (loadedConfig doc).num_tx = 2) ∧
      (doc.basic.bind JsonBasicSection.numChirps = none →
        (loadedConfig doc).num_chirps = 64) ∧
      (doc.basic.bind JsonBasicSection.adcSamples = none →
        (loadedConfig doc).adc_samples = 256) ∧
      (doc.basic.bind JsonBasicSection.fps = none →
        (loadedConfig doc).fps = 10) ∧
      (doc.clustering.bind JsonClusteringSection.maxPoints = none →
        (loadedConfig doc).max_points = 1000) ∧
      (doc.clustering.bind JsonClusteringSection.maxClusters = none →
        (loadedConfig doc).max_clusters = 20)) := by
  refine ⟨rfl, rfl, fun doc => ⟨rfl, ?_, ?_, ?_, ?_, ?_, ?_, ?_⟩⟩
  · intro h; rw [loadedConfig_num_rx, h]; rfl
  · intro h; rw [loadedConfig_num_tx, h]; rfl
  · intro h; rw [loadedConfig_num_chirps, h]; rfl
  · intro h; rw [loadedConfig_adc_samples, h]; rfl
  · intro h; rw [loadedConfig_fps, h]; rfl
  · intro h; rw [loadedConfig_max_points, h]; rfl
  · intro h; rw [loadedConfig_max_clusters, h]; rfl

/-- The empty document: every section absent. -/
def emptyDoc : RadarJsonDoc :=
  { basic := none, detection := none, clustering := none, tracking := none }

/-- Witness for C9 at the empty document: the load succeeds and all the
documented defaults appear. -/
theorem spec_c9_config_loading_witness :
    (emptyDoc.basic.bind JsonBasicSection.numRx = none ∧
     emptyDoc.clustering.bind JsonClusteringSection.maxPoints = none) ∧
    load_from_json JsonInput.unreadable = none ∧
    load_from_json JsonInput.malformed = none ∧
    load_from_json (JsonInput.ok emptyDoc) = some (loadedConfig emptyDoc) ∧
    (loadedConfig emptyDoc).num_rx = 4 ∧
    (loadedConfig emptyDoc).num_tx = 2 ∧
    (loadedConfig emptyDoc).num_chirps = 64 ∧
    (loadedConfig emptyDoc).adc_samples = 256 ∧
    (loadedConfig emptyDoc).fps = 10 ∧
    (loadedConfig emptyDoc).max_points = 1000 ∧
    (loadedConfig emptyDoc).max_clusters = 20 := by
  have h := spec_c9_config_loading
  obtain ⟨hu, hm, hdoc⟩ := h
  obtain ⟨hload, h1, h2, h3, h4, h5, h6, h7⟩ := hdoc emptyDoc
  exact ⟨⟨rfl, rfl⟩, hu, hm, hload, h1 rfl, h2 rfl, h3 rfl, h4 rfl, h5 rfl,
    h6 rfl, h7 rfl⟩

/-- Capacity of the fixed stack array
`std::complex<float> temp_samples[256]` declared inside the reorder loop
(`gstradarprocess.cpp` line 523). -/
def TEMP_SAMPLES_CAPACITY : ℕ := 256

/-- The per-window loops of `gst_radar_process_transform_ip` (lines
526-539) index `temp_samples[s]` for every `s < adc_samples`; the accesses
stay inside the array exactly when every such index is below the declared
capacity. -/
def tempWritesInBounds (sn : ℕ) : Prop := ∀ s : ℕ, s < sn → s < TEMP_SAMPLES_CAPACITY

/-- C6: the writes and reads of `temp_samples` are in bounds precisely when
the configured ADC sample count is at most 256; the configuration loader
copies any `adcSamples` value from the JSON without validating this bound,
so every configuration with more than 256 ADC samples drives the per-window
loop past the end of the temporary array. -/
theorem spec_c6_temp_array_bound :
    (∀ sn : ℕ, tempWritesInBounds sn ↔ sn ≤ TEMP_SAMPLES_CAPACITY) ∧
    (∀ (doc : RadarJsonDoc) (b : JsonBasicSection) (n : ℕ),
      doc.basic = some b → b.adcSamples = some n →
      load_from_json (JsonInput.ok doc) = some (loadedConfig doc) ∧
      (loadedConfig doc).adc_samples = n) ∧
    (∀ n : ℕ, TEMP_SAMPLES_CAPACITY < n → ¬ tempWritesInBounds n) := by
  refine ⟨?_, ?_, ?_⟩
  · intro sn
    constructor
    · intro hf
      by_contra hlt
      push_neg at hlt
      exact absurd (hf TEMP_SAMPLES_CAPACITY hlt) (Nat.lt_irrefl _)
    · intro hle s hs
      exact Nat.lt_of_lt_of_le hs hle
  · intro doc b n hb hn
    refine ⟨rfl, ?_⟩
    rw [loadedConfig_adc_samples, hb]
    simp [hn]
  · intro n hlt hf
    exact absurd (hf TEMP_SAMPLES_CAPACITY hlt) (Nat.lt_irrefl _)

/-- A basic section requesting 512 ADC samples, all other keys absent. -/
def oversizedBasic : JsonBasicSection :=
  { numRx := none, numTx := none, startFrequency := none, idle := none,
    adcStartTime := none, rampEndTime := none, freqSlopeConst := none,
    adcSamples := some 512, adcSampleRate := none, numChirps := none,
    fps := none }

/-- A document configuring 512 ADC samples. -/
def oversizedDoc : RadarJsonDoc :=
  { basic := some oversizedBasic, detection := none, clustering := none,
    tracking := none }

/-- Witness for C6: a configuration with adcSamples = 512 loads without
complaint, and the per-window accesses for 512 samples leave the
256-element temporary array. -/
theorem spec_c6_temp_array_bound_witness :
    (oversizedDoc.basic = some oversizedBasic ∧
     oversizedBasic.adcSamples = some 512) ∧
    (load_from_json (JsonInput.ok oversizedDoc) = some (loadedConfig oversizedDoc) ∧
     (loadedConfig oversizedDoc).adc_samples = 512) ∧
    TEMP_SAMPLES_CAPACITY < 512 ∧
    ¬ tempWritesInBounds 512 ∧
    (tempWritesInBounds 256 ↔ 256 ≤ TEMP_SAMPLES_CAPACITY) :=
  ⟨⟨rfl, rfl⟩,
    spec_c6_temp_array_bound.2.1 oversizedDoc oversizedBasic 512 rfl rfl,
    by decide,
    spec_c6_temp_array_bound.2.2 512 (by decide),
    spec_c6_temp_array_bound.1 256⟩

/-- `gst_radar_process_meta_transform` (g3d_radarprocess_meta.c lines
78-89): ignores every argument and returns FALSE — metadata is never
carried onto a transformed or copied buffer. -/
def gst_radar_process_meta_transform {A B C D E : Type}
    (_transbuf : A) (_meta : B) (_buffer : C) (_ty : D) (_data : E) : Bool :=
  false

/-- C10: the metadata transform hook returns false for every combination of
source buffer, metadata, destination buffer, transform type and argument. -/
theorem spec_c10_meta_transform_always_false :
    ∀ {A B C D E : Type} (a : A) (b : B) (c : C) (d : D) (e : E),
      gst_radar_process_meta_transform a b c d e = false :=
  fun _ _ _ _ _ => rfl

end RadarProc
